import Mathlib

/-
Shallow embedding of src/langchain/utilities/google_appbuilder_api.py
(class GoogleAppBuilderAPIWrapper): the JSON-like values handled by the
module, the recursive flattening routine format_array, the per-result
formatters fetch_appbuilder_details / format_appbuilder_details, the
top-level run entry point, and the request body construction.
-/

namespace GoogleAppBuilder

/-- A JSON-like value as produced by Python json.loads: strings, integers,
booleans, None, objects (kept as insertion-ordered key/value lists; JSON
objects after loads have unique keys) and arrays. -/
inductive JVal where
| str : String → JVal
| int : Int → JVal
| bool : Bool → JVal
| null : JVal
| dict : List (String × JVal) → JVal
| list : List JVal → JVal

/-- Python dict.get on an insertion-ordered association list (keys unique). -/
def jget : List (String × JVal) → String → Option JVal
| [], _ => none
| (k, v) :: rest, key => if k = key then some v else jget rest key

/-- Whether the first character list starts the second one. -/
def charsLead : List Char → List Char → Bool
| [], _ => true
| _ :: _, [] => false
| a :: as, b :: bs => a == b && charsLead as bs

/-- Whether the first character list occurs contiguously in the second. -/
def charsOccur (needle : List Char) : List Char → Bool
| [] => needle.isEmpty
| b :: bs => charsLead needle (b :: bs) || charsOccur needle bs

/-- Python substring containment: needle in hay. -/
def strContains (hay needle : String) : Bool :=
  charsOccur needle.data hay.data

/-- A single-quote character, used by Python repr of strings. -/
def sq : String := String.singleton (Char.ofNat 39)

mutual

/-- Python repr of a JSON-derived value, for the simple values used here
(strings without quotes, backslashes or control characters, so repr adds
single quotes and no escapes). -/
def pyRepr : JVal → String
| .str s => sq ++ s ++ sq
| .int n => toString n
| .bool b => if b then "True" else "False"
| .null => "None"
| .dict es => "\x7b" ++ String.intercalate ", " (pyReprEntries es) ++ "\x7d"
| .list vs => "[" ++ String.intercalate ", " (pyReprList vs) ++ "]"

/-- Python repr of the entries of a dict, in insertion order. -/
def pyReprEntries : List (String × JVal) → List String
| [] => []
| (k, v) :: rest => (sq ++ k ++ sq ++ ": " ++ pyRepr v) :: pyReprEntries rest

/-- Python repr of the elements of a list, in order. -/
def pyReprList : List JVal → List String
| [] => []
| v :: vs => pyRepr v :: pyReprList vs

end

/-- Python str of a JSON-derived value: the string itself for a str, and
repr for every other type (as used by the f-string interpolation of a
value). -/
def pyStr : JVal → String
| .str s => s
| v => pyRepr v

/-- The dict branch of format_array: for each key in insertion order, a
string value is appended as a " \n key : value" segment unless it contains
"http" (then it is only printed, a side effect, and dropped from the
output); a non-string value is appended with the f-string rendering
str(value) — the recursive call on line 154 is commented out in the
source. -/
def dictFold : List (String × JVal) → String → String
| [], acc => acc
| (key, value) :: rest, acc =>
  match value with
  | .str s =>
    if strContains s "http" then dictFold rest acc
    else dictFold rest (acc ++ " \n " ++ key ++ " : " ++ s)
  | v => dictFold rest (acc ++ " \n " ++ key ++ " : " ++ pyStr v)

mutual

/-- format_array (source lines 135-173): a string is returned unchanged, a
dict is folded via dictFold starting from "", a list is the ", "-join of
the recursive formatting of its elements, every other type yields "".
The try/except is dead for JSON-derived inputs: no operation raises. -/
def format_array : JVal → String
| .str s => s
| .dict es => dictFold es ""
| .list vs => String.intercalate ", " (format_list vs)
| _ => ""

/-- The elementwise recursion of the list branch of format_array. -/
def format_list : List JVal → List String
| [] => []
| v :: vs => format_array v :: format_list vs

end

/-- format_appbuilder_details (source lines 122-133): title is looked up
with default ""; if the details value is not a dict, .get raises and the
handler returns None; if the title value is not a string, title + " \n "
raises TypeError and the handler returns None; otherwise the result is
title ++ " \n " ++ format_array(details). -/
def format_appbuilder_details (appbuilder_details : JVal) : Option String :=
  match appbuilder_details with
  | .dict es =>
    match (jget es "title").getD (.str "") with
    | .str title => some (title ++ " \n " ++ format_array (.dict es))
    | _ => none
  | _ => none

/-- fetch_appbuilder_details (source lines 111-120): extracts
prediction.get("document", \x7b\x7d).get("derivedStructData", \x7b\x7d) and
formats it; any exception (a non-dict prediction or a non-dict document
value has no .get) is caught and yields None. -/
def fetch_appbuilder_details (prediction : JVal) : Option String :=
  match prediction with
  | .dict es =>
    match (jget es "document").getD (.dict []) with
    | .dict es1 =>
      format_appbuilder_details ((jget es1 "derivedStructData").getD (.dict []))
    | _ => none
  | _ => none

/-- The fixed message run returns when the result set is empty. -/
def sentinelNoResults : String :=
  "Google appbuilders did not find any appbuilders that match the description"

/-- The index used by the loop of run: the source writes
search_results[id == i], comparing the builtin function id to the loop
counter; the comparison is always False, and False as a list index is 0,
so every iteration reads element 0. -/
def loopIndex (_i : Nat) : Nat := 0

/-- The accumulation loop of run: for i in range(n), fetch details of
search_results[id == i] and append them when not None.  Element 0 exists
whenever the loop body runs, so the out-of-range case is unreachable. -/
def runLoop (l : List JVal) : Nat → List String
| 0 => []
| n + 1 =>
  runLoop l n ++
    (match l.get? (loopIndex n) with
     | some result =>
       match fetch_appbuilder_details result with
       | some details => [details]
       | none => []
     | none => [])

/-- The 1-based numbering of run: f-strings "i+1. item" starting at i. -/
def numberFrom : Nat → List String → List String
| _, [] => []
| i, item :: rest => (toString (i + 1) ++ ". " ++ item) :: numberFrom (i + 1) rest

/-- Python slicing answer[:n] on characters, applied only when longer. -/
def pyTruncate (s : String) (n : Nat) : String :=
  if s.length > n then String.mk (s.data.take n) else s

/-- The fixed instructional template of run (source lines 105-109),
with the exact whitespace of the triple-quoted f-string. -/
def wrapAnswer (answer : String) : String :=
  "\n                thought: I have find: \n                " ++ answer ++
    "\n                action: summarize answer and provide url link \n                action_input:  "

/-- run (source lines 66-109), on the parsed response body: takes
response.get("results", \x7b\x7d); when it is a list, returns the sentinel
when empty and otherwise numbers and joins the loop output, truncates it
to 1024 characters, and wraps it in the template.  A dict of len 0 or an
empty string also yield the sentinel; a nonempty dict raises KeyError on
index False (string keys), a nonempty string yields characters that have
no .get so nothing is ever appended, and other types make len() raise.
none models an exception propagating out of run. -/
def run (resp : JVal) : Option String :=
  match resp with
  | .dict es =>
    match (jget es "results").getD (.dict []) with
    | .list l =>
      if l.length = 0 then some sentinelNoResults
      else
        let appbuilders := runLoop l l.length
        let answer := String.intercalate "\n" (numberFrom 0 appbuilders)
        some (wrapAnswer (pyTruncate answer 1024))
    | .dict es2 =>
      if es2.length = 0 then some sentinelNoResults else none
    | .str s =>
      if s.length = 0 then some sentinelNoResults else some (wrapAnswer "")
    | _ => none
  | _ => none

/-- num_to_return as fixed before the request is built (source line 75). -/
def num_to_return : Nat := 2

/-- page_size (source line 76). -/
def page_size : Nat := num_to_return

/-- The request body of run (source line 78): page_size is interpolated
through an f-string, so it is the JSON string "2", while offset is the
JSON number 0. -/
def requestData (query : String) : JVal :=
  .dict [("query", .str query), ("page_size", .str (toString page_size)),
         ("offset", .int 0)]

mutual

/-- json.dumps with default separators, for values whose strings need no
escaping. -/
def jsonDumps : JVal → String
| .str s => "\"" ++ s ++ "\""
| .int n => toString n
| .bool b => if b then "true" else "false"
| .null => "null"
| .dict es => "\x7b" ++ String.intercalate ", " (jsonEntries es) ++ "\x7d"
| .list vs => "[" ++ String.intercalate ", " (jsonList vs) ++ "]"

/-- json.dumps of the entries of an object, in insertion order. -/
def jsonEntries : List (String × JVal) → List String
| [] => []
| (k, v) :: rest => ("\"" ++ k ++ "\": " ++ jsonDumps v) :: jsonEntries rest

/-- json.dumps of the elements of an array, in order. -/
def jsonList : List JVal → List String
| [] => []
| v :: vs => jsonDumps v :: jsonList vs

end

mutual

/-- Modelled from the spec wording of claim C4: a flattening that recurses
into every non-string dict value (same segment layout as the source
otherwise), to be compared with format_array. -/
def specFlatten : JVal → String
| .str s => s
| .dict es => specEntries es
| .list vs => String.intercalate ", " (specList vs)
| _ => ""

/-- The dict entries of specFlatten, in insertion order. -/
def specEntries : List (String × JVal) → String
| [] => ""
| (key, .str s) :: rest =>
  (if strContains s "http" then "" else " \n " ++ key ++ " : " ++ s) ++ specEntries rest
| (key, v) :: rest => " \n " ++ key ++ " : " ++ specFlatten v ++ specEntries rest

/-- The list elements of specFlatten, in order. -/
def specList : List JVal → List String
| [] => []
| v :: vs => specFlatten v :: specList vs

end

/-- The text one dict entry contributes to format_array: a " \n key : value"
segment, with a string value taken verbatim (or dropped when it contains
"http") and any other value rendered through Python str. -/
def entryText : String × JVal → String
| (key, .str s) => if strContains s "http" then "" else " \n " ++ key ++ " : " ++ s
| (key, v) => " \n " ++ key ++ " : " ++ pyStr v

/-- Concatenation of a list of strings in order. -/
def concatAll : List String → String
| [] => ""
| s :: rest => s ++ concatAll rest

/-- The derivedStructData of the first test result. -/
def alphaData : JVal := .dict [("title", .str "Alpha"), ("desc", .str "first")]

/-- A well-formed result whose details mention Alpha. -/
def resultAlpha : JVal := .dict [("document", .dict [("derivedStructData", alphaData)])]

/-- The derivedStructData of the second test result. -/
def betaData : JVal := .dict [("title", .str "Beta"), ("desc", .str "second")]

/-- A well-formed result whose details mention Beta. -/
def resultBeta : JVal := .dict [("document", .dict [("derivedStructData", betaData)])]

/-- A backend response with two distinct well-formed results. -/
def respTwo : JVal := .dict [("results", .list [resultAlpha, resultBeta])]

/-- A malformed result: its document.derivedStructData substructure is
missing because the document value is not a mapping, so the nested .get
raises and fetch_appbuilder_details returns None. -/
def malformedResult : JVal := .dict [("document", .str "oops")]

/-- A backend response with three results of which exactly the middle one
is malformed. -/
def respThree : JVal := .dict [("results", .list [resultAlpha, malformedResult, resultBeta])]

/-- The formatted details of resultAlpha. -/
def alphaDetails : String := "Alpha \n  \n title : Alpha \n desc : first"

/-- A 600-character title. -/
def longTitle : String := String.mk (List.replicate 600 (Char.ofNat 97))

/-- Details carrying the 600-character title. -/
def longData : JVal := .dict [("title", .str longTitle)]

/-- A backend response with one result whose title has 600 characters. -/
def respLong : JVal :=
  .dict [("results", .list [.dict [("document", .dict [("derivedStructData", longData)])]])]

/-- The derivedStructData of the worked example of the spec. -/
def weatherData : JVal := .dict [("title", .str "Weather API"), ("desc", .str "hot")]

/-- The mocked backend response of the worked example of the spec. -/
def weatherResp : JVal :=
  .dict [("results", .list [.dict [("document", .dict [("derivedStructData", weatherData)])]])]

/-- A dict with one entry whose value is a nested list, used to compare
format_array with the recursive flattening described by the spec. -/
def dictWithNestedList : JVal := .dict [("k", .list [.int 1, .int 2])]

/-- dictFold splits over a decomposition of its accumulator. -/
theorem dictFold_split (es : List (String × JVal)) :
    ∀ a b : String, dictFold es (a ++ b) = a ++ dictFold es b := by
  induction es with
  | nil => intro a b; rfl
  | cons e rest ih =>
    intro a b
    obtain ⟨key, v⟩ := e
    cases v <;> simp only [dictFold] <;> (try split) <;>
      (try simp only [String.append_assoc]) <;> rw [ih]

/-- dictFold threads its accumulator on the left. -/
theorem dictFold_acc (es : List (String × JVal)) (acc : String) :
    dictFold es acc = acc ++ dictFold es "" := by
  have h := dictFold_split es acc ""
  rwa [String.append_empty] at h

/-- Skipping lemma behind claim C8: an entry whose string value contains
"http" contributes nothing to dictFold. -/
theorem dictFold_skip_http (post : List (String × JVal)) (key value : String)
    (h : strContains value "http" = true) :
    ∀ (pre : List (String × JVal)) (acc : String),
      dictFold (pre ++ (key, .str value) :: post) acc = dictFold (pre ++ post) acc := by
  intro pre
  induction pre with
  | nil => intro acc; simp [dictFold, h]
  | cons e rest ih =>
    intro acc
    obtain ⟨k, v⟩ := e
    cases v <;> simp only [List.cons_append, dictFold] <;> (try split) <;> apply ih

/-- Length bound for the truncation of run. -/
theorem pyTruncate_length_le (s : String) (n : Nat) : (pyTruncate s n).length ≤ n := by
  unfold pyTruncate
  split
  · simp only [String.length_mk, List.length_take]
    exact Nat.min_le_left _ _
  · omega

/-- The template of run adds exactly 151 characters around the answer. -/
theorem wrapAnswer_length (a : String) : (wrapAnswer a).length = 151 + a.length := by
  unfold wrapAnswer
  rw [String.length_append, String.length_append]
  have h1 : ("\n                thought: I have find: \n                " : String).length = 56 := by decide
  have h2 : ("\n                action: summarize answer and provide url link \n                action_input:  " : String).length = 95 := by decide
  rw [h1, h2]
  omega

/-- The wrapped truncated answer never exceeds 1175 characters. -/
theorem wrap_trunc_le (t : String) : (wrapAnswer (pyTruncate t 1024)).length ≤ 1175 := by
  rw [wrapAnswer_length]
  have := pyTruncate_length_le t 1024
  omega

set_option maxRecDepth 100000

/-- Claim C1 evaluated at a failing input: on a response with two distinct
well-formed results the loop of run reads search_results[id == i], which
is element 0 on every iteration, so both numbered entries are the
formatting of the first result and the second result (Beta) never appears
in the output. -/
theorem run_processes_only_first_result :
    run respTwo =
      some (wrapAnswer ("1. " ++ alphaDetails ++ "\n" ++ "2. " ++ alphaDetails)) ∧
    strContains ((run respTwo).getD "") "Beta" = false :=
  ⟨by decide, by decide⟩

/-- Claim C2 evaluated at a failing input: on a response with three results
of which exactly the middle one is malformed (its document value is not a
mapping, so fetch_appbuilder_details returns none), the output of run has
three numbered entries, all equal to the formatting of result 0, instead
of the two entries the claim demands. -/
theorem malformed_result_not_skipped :
    fetch_appbuilder_details malformedResult = none ∧
    run respThree =
      some (wrapAnswer ("1. " ++ alphaDetails ++ "\n" ++ "2. " ++ alphaDetails
        ++ "\n" ++ "3. " ++ alphaDetails)) :=
  ⟨by decide, by decide⟩

/-- Claim C3 counterexample: on a non-empty result set with a 600-character
title the string returned by run is strictly longer than 1024 characters,
because only the joined answer is truncated to 1024 before being wrapped
in the fixed template. -/
theorem run_output_exceeds_1024 :
    1024 < ((run respLong).getD "").length := by decide

/-- Claim C3 amended: for every response on which run succeeds, the
returned string has at most 1024 + 151 = 1175 characters: the joined
answer is truncated to 1024 characters and the fixed template adds 151. -/
theorem run_length_bounded (resp : JVal) (s : String) (h : run resp = some s) :
    s.length ≤ 1175 := by
  have hsent : sentinelNoResults.length ≤ 1175 := by decide
  cases resp with
  | dict es =>
    simp only [run] at h
    split at h
    · split at h
      · cases h; exact hsent
      · cases h
        exact wrap_trunc_le _
    · split at h
      · cases h; exact hsent
      · cases h
    · split at h
      · cases h; exact hsent
      · cases h
        decide
    · cases h
  | str s => cases h
  | int n => cases h
  | bool b => cases h
  | null => cases h
  | list l => cases h

/-- Witness for the amended claim C3 at a concrete response. -/
theorem run_length_bounded_witness : (wrapAnswer "").length ≤ 1175 :=
  run_length_bounded (.dict [("results", .list [.null])]) (wrapAnswer "") (by decide)

/-- Claim C4 counterexample: on a dict whose value is a nested list,
format_array renders the value verbatim through Python str (the recursive
call of the source is commented out), so it differs from the recursive
flattening the claim describes: the list [1, 2] appears as "[1, 2]" and
not as its recursive flattening ", ". -/
theorem format_array_dict_value_verbatim_cex :
    format_array dictWithNestedList = " \n k : [1, 2]" ∧
    specFlatten dictWithNestedList = " \n k : , " ∧
    format_array dictWithNestedList ≠ specFlatten dictWithNestedList :=
  ⟨by decide, by decide, by decide⟩

/-- Claim C4 amended: on a dict, format_array is the concatenation, in
insertion order, of one " \n key : value" segment per entry, where a
string value appears verbatim (and is dropped when it contains "http")
and every non-string value appears as its Python str rendering, not as a
recursive flattening. -/
theorem format_array_dict_verbatim (es : List (String × JVal)) :
    format_array (.dict es) = concatAll (es.map entryText) := by
  show dictFold es "" = concatAll (es.map entryText)
  induction es with
  | nil => rfl
  | cons e rest ih =>
    obtain ⟨key, v⟩ := e
    cases v with
    | str s =>
      simp only [dictFold, List.map, concatAll, entryText]
      split
      · simpa using ih
      · rw [dictFold_acc, ih]
        simp [String.append_assoc]
    | int n =>
      simp only [dictFold, List.map, concatAll, entryText]
      rw [dictFold_acc, ih]
      simp [String.append_assoc]
    | bool b =>
      simp only [dictFold, List.map, concatAll, entryText]
      rw [dictFold_acc, ih]
      simp [String.append_assoc]
    | null =>
      simp only [dictFold, List.map, concatAll, entryText]
      rw [dictFold_acc, ih]
      simp [String.append_assoc]
    | dict es2 =>
      simp only [dictFold, List.map, concatAll, entryText]
      rw [dictFold_acc, ih]
      simp [String.append_assoc]
    | list vs =>
      simp only [dictFold, List.map, concatAll, entryText]
      rw [dictFold_acc, ih]
      simp [String.append_assoc]

/-- Claim C5: whenever the results value of the parsed response is an
empty list, run returns exactly the fixed no-results sentinel string and
nothing else. -/
theorem run_empty_results_sentinel (es : List (String × JVal))
    (h : jget es "results" = some (.list [])) :
    run (.dict es) = some sentinelNoResults ∧
    sentinelNoResults =
      "Google appbuilders did not find any appbuilders that match the description" := by
  constructor
  · simp [run, h]
  · rfl

/-- Witness for claim C5 at a concrete response. -/
theorem run_empty_results_sentinel_witness :
    run (.dict [("results", .list [])]) = some sentinelNoResults ∧
    sentinelNoResults =
      "Google appbuilders did not find any appbuilders that match the description" :=
  run_empty_results_sentinel [("results", .list [])] (by rfl)

/-- Claim C6 counterexample: on the mocked weather response the output of
run does not contain the substring claimed by the spec, because the title
key is itself formatted as a " \n title : Weather API" segment between
the heading and the desc segment. -/
theorem weather_claimed_substring_absent :
    strContains ((run weatherResp).getD "") "1. Weather API \n  \n desc : hot" = false := by
  decide

/-- Claim C6 amended: on the mocked weather response the output of run
contains the substring "1. Weather API \n  \n title : Weather API \n
desc : hot". -/
theorem weather_amended_substring_present :
    strContains ((run weatherResp).getD "")
      "1. Weather API \n  \n title : Weather API \n desc : hot" = true := by
  decide

/-- Claim C7: format_array returns a string leaf unchanged, so on plain
strings without "http" it is idempotent. -/
theorem format_array_plain_string_id (s : String)
    (_h : strContains s "http" = false) :
    format_array (.str s) = s ∧
    format_array (.str (format_array (.str s))) = format_array (.str s) :=
  ⟨rfl, rfl⟩

/-- Witness for claim C7 at a concrete string. -/
theorem format_array_plain_string_id_witness :
    format_array (.str "hello") = "hello" ∧
    format_array (.str (format_array (.str "hello"))) = format_array (.str "hello") :=
  format_array_plain_string_id "hello" (by decide)

/-- Claim C8: a dict entry whose string value contains "http" is dropped
from the output of format_array: the result is the same as on the dict
without that entry. -/
theorem format_array_drops_http_entry (pre post : List (String × JVal))
    (key value : String) (h : strContains value "http" = true) :
    format_array (.dict (pre ++ (key, .str value) :: post)) =
      format_array (.dict (pre ++ post)) := by
  show dictFold (pre ++ (key, .str value) :: post) "" = dictFold (pre ++ post) ""
  exact dictFold_skip_http post key value h pre ""

/-- Witness for claim C8 at a concrete dict. -/
theorem format_array_drops_http_entry_witness :
    format_array (.dict [("a", .str "x"), ("link", .str "http://e"), ("b", .str "y")]) =
      format_array (.dict [("a", .str "x"), ("b", .str "y")]) :=
  format_array_drops_http_entry [("a", .str "x")] [("b", .str "y")] "link" "http://e"
    (by decide)

/-- Claim C9: format_array returns every top-level string argument
unchanged, also when it contains "http": the suppression only applies to
string values met while iterating a dict. -/
theorem format_array_top_level_string_unchanged (s : String) :
    format_array (.str s) = s := rfl

/-- Claim C10: the request body of run carries page_size as the JSON
string "2" (the loop count pushed through an f-string) while offset is
the JSON number 0, as json.dumps shows on a concrete query. -/
theorem request_body_page_size_string (q : String) :
    requestData q =
      .dict [("query", .str q), ("page_size", .str "2"), ("offset", .int 0)] ∧
    jsonDumps (requestData "weather") =
      "\x7b\"query\": \"weather\", \"page_size\": \"2\", \"offset\": 0\x7d" :=
  ⟨rfl, by decide⟩

end GoogleAppBuilder
